import Mathlib

/-!
Shallow embedding of the GNSS geolocation middleware
(`src/geolocation_middleware/gnss/src/gnss_middleware.c`).

The middleware's global variables become the fields of `gnss_state`; each C
function becomes an executable Lean function from (arguments, environment
inputs, state) to (return code, new state, list of external requests).
External collaborator outcomes (radio-planner task queuing, time query, driver
scan / result retrieval, uplink acceptance) are passed in as explicit
environment values, mirroring the return codes the C code inspects.

The scan-group queue (`gnss_queue.c`) and the public header enumerations are
part of this repository but are not under `src/`; those parts are modelled
from the spec, and each such definition is marked `Modelled from the spec:`.
-/

namespace GnssMiddleware

/-- Return code of the middleware API (`mw_return_code_t`). The C code uses
the single code `MW_RC_FAILED` for every caller-input failure (the spec's
`InvalidArgument`) and for the not-initialized failure (the spec's
`NotReady`). -/
inductive mw_return_code_t
  | ok
  | busy
  | failed
  deriving DecidableEq, Repr

/-- Internal pending-error classification (`gnss_mw_internal_error_t`). -/
inductive gnss_mw_internal_error_t
  | error_none
  | scan_failed
  | no_time
  | unknown
  deriving DecidableEq, Repr

/-- Scan group mode (`gnss_scan_group_mode_t`), an opaque configuration tag. -/
inductive gnss_scan_group_mode_t
  | mode_default
  | mode_sensitivity
  deriving DecidableEq, Repr

/-- Description of a scan mode (`gnss_mw_mode_desc_t`). -/
structure gnss_mw_mode_desc_t where
  scan_group_delay : Nat
  scan_group_size : Nat
  sv_min : Nat
  deriving DecidableEq, Repr

/-- The static mode descriptor table `modes[]` (STATIC, MOBILE). -/
def modes : List gnss_mw_mode_desc_t :=
  [ { scan_group_delay := 15, scan_group_size := 4, sv_min := 3 },
    { scan_group_delay := 0, scan_group_size := 2, sv_min := 5 } ]

/-- Out-of-range fallback descriptor, never reached on a valid mode index. -/
def default_mode_desc : gnss_mw_mode_desc_t :=
  { scan_group_delay := 0, scan_group_size := 0, sv_min := 0 }

/-- Solver aiding position buffer size (1 byte tag + 3 bytes position). -/
def SOLVER_AIDING_POSITION_SIZE : Nat := 4

/-- Modelled from the spec: maximum scan-group size (a `gnss_queue.h`
constant, not under `src/`); the spec leaves the exact bound as deployment
policy, we take the largest descriptor group size. -/
def GNSS_SCAN_GROUP_SIZE_MAX : Nat := 4

/-- Modelled from the spec: the single-scan validity threshold
`GNSS_SCAN_SINGLE_NAV_MIN_SV` (a `gnss_queue.h` constant, not under `src/`);
the claims only compare against this named constant, its numeric value is
deployment policy. -/
def GNSS_SCAN_SINGLE_NAV_MIN_SV : Nat := 5

/-- Detected-satellite information entry (id, carrier-to-noise ratio). -/
structure gnss_mw_sv_info_t where
  satellite_id : Nat
  cnr : Int
  deriving DecidableEq, Repr

/-- One scan result (`gnss_scan_t`): timestamp, navigation payload, validity
flag, detected satellites. -/
structure gnss_scan_t where
  timestamp : Nat
  results_size : Nat
  nav : List Nat
  nav_valid : Bool
  detected_svs : Nat
  info_svs : List gnss_mw_sv_info_t
  deriving DecidableEq, Repr

/-- Fallback scan value for out-of-range queue indexing (never reached). -/
def default_scan : gnss_scan_t :=
  { timestamp := 0, results_size := 0, nav := [], nav_valid := false,
    detected_svs := 0, info_svs := [] }

/-- Modelled from the spec: the scan group queue (`gnss_scan_group_queue_t`
of `gnss_queue.c`, not under `src/`): bounded ordered collection of scan
results with a correlation token, counts of produced/valid/sent results and a
power accumulator. -/
structure gnss_scan_group_queue_t where
  token : Nat
  capacity : Nat
  sv_min : Nat
  group_mode : gnss_scan_group_mode_t
  scans : List gnss_scan_t
  nb_scans_valid : Nat
  nb_scans_sent : Nat
  power_consumption_uah : Nat
  deriving DecidableEq, Repr

/-- Modelled from the spec: token reset, performed only at system
initialization. -/
def gnss_scan_group_queue_reset_token (q : gnss_scan_group_queue_t) :
    gnss_scan_group_queue_t :=
  { q with token := 0 }

/-- Modelled from the spec: creating a new scan group for a sequence keeps
the persistent token and resets contents, counts and power accumulator;
capacity is fixed per sequence and bounded. -/
def gnss_scan_group_queue_new (q : gnss_scan_group_queue_t) (size : Nat)
    (m : gnss_scan_group_mode_t) (sv_min : Nat) :
    Option gnss_scan_group_queue_t :=
  if 0 < size ∧ size ≤ GNSS_SCAN_GROUP_SIZE_MAX then
    some { token := q.token, capacity := size, sv_min := sv_min,
           group_mode := m, scans := [], nb_scans_valid := 0,
           nb_scans_sent := 0, power_consumption_uah := 0 }
  else
    none

/-- Modelled from the spec: the buffer is full once the number of produced
results has reached its capacity. -/
def gnss_scan_group_queue_is_full (q : gnss_scan_group_queue_t) : Bool :=
  decide (q.capacity ≤ q.scans.length)

/-- Modelled from the spec: the group is valid iff at least one result meets
the minimum-satellite-count threshold of the sequence. -/
def gnss_scan_group_queue_is_valid (q : gnss_scan_group_queue_t) : Bool :=
  decide (0 < q.nb_scans_valid)

/-- Modelled from the spec: the token is a monotonically incrementing
integer; advancing it adds exactly one. -/
def gnss_scan_group_queue_increment_token (q : gnss_scan_group_queue_t) :
    gnss_scan_group_queue_t :=
  { q with token := q.token + 1 }

/-- Modelled from the spec: pushing a result appends it (no push once full);
a result counts as valid for the group when its detected-satellite count
meets the sequence threshold. -/
def gnss_scan_group_queue_push (q : gnss_scan_group_queue_t)
    (scan : gnss_scan_t) : gnss_scan_group_queue_t :=
  if gnss_scan_group_queue_is_full q then q
  else
    { q with scans := q.scans ++ [scan],
             nb_scans_valid :=
               q.nb_scans_valid + (if q.sv_min ≤ scan.detected_svs then 1 else 0) }

/-- Modelled from the spec: popping yields the oldest unsent result's
serialized buffer and advances the sent count; reports nothing once all
produced results have been handed out. -/
def gnss_scan_group_queue_pop (q : gnss_scan_group_queue_t) :
    Option (List Nat) × gnss_scan_group_queue_t :=
  if q.nb_scans_sent < q.scans.length then
    (some (q.scans.getD q.nb_scans_sent default_scan).nav,
     { q with nb_scans_sent := q.nb_scans_sent + 1 })
  else
    (none, q)

/-- Outcome-event tags (`gnss_mw_event_type_t`). -/
inductive gnss_mw_event_type_t
  | scan_done
  | terminated
  | scan_cancelled
  | error_no_time
  | error_almanac_update
  | error_no_aiding_position
  | error_unknown
  deriving DecidableEq, Repr

/-- Modelled from the spec: bit position of each event tag in the
pending-event bitmask (the enumeration lives in `gnss_middleware.h`, not
under `src/`; no claim depends on the particular assignment, only on the
bits being those of a closed enumeration). -/
def gnss_mw_event_type_t.toBit : gnss_mw_event_type_t → Nat
  | .scan_done => 0
  | .terminated => 1
  | .scan_cancelled => 2
  | .error_no_time => 3
  | .error_almanac_update => 4
  | .error_no_aiding_position => 5
  | .error_unknown => 6

/-- Frozen scan context snapshot (`gnss_mw_scan_context_t`). Latitude and
longitude are opaque values here (the middleware only copies them). -/
structure gnss_mw_scan_context_t where
  mode : Nat
  assisted : Bool
  aiding_position_latitude : Int
  aiding_position_longitude : Int
  almanac_crc : Nat
  deriving DecidableEq, Repr

/-- Lifecycle phase of the scan sequence. Modelled from the spec: the
abstract state machine Idle, Scheduled, Running, Draining; the C code has no
such variable (it tracks only `task_running`), so this is ghost
instrumentation updated at exactly the transition points the spec names. -/
inductive seq_phase_t
  | idle
  | scheduled
  | running
  | draining
  deriving DecidableEq, Repr

/-- The middleware state: one field per file-scope mutable variable of
`gnss_middleware.c`, plus the ghost `spec_phase`. `modem_radio_set` stands
for `modem_radio_ctx != NULL`. -/
structure gnss_state where
  modem_radio_set : Bool
  gnss_scan_group_queue : gnss_scan_group_queue_t
  aiding_position_received : Bool
  user_aiding_position_update_received : Bool
  user_aiding_position_update : Int × Int
  solver_aiding_position_update_received : Bool
  solver_aiding_position_update : List Nat
  scan_group_mode : gnss_scan_group_mode_t
  current_mode_index : Nat
  pending_error : gnss_mw_internal_error_t
  pending_events : Nat
  current_constellations : Nat
  lorawan_port : Nat
  scan_aggregate : Bool
  send_bypass : Bool
  task_cancelled_by_user : Bool
  task_running : Bool
  lr11xx_scan_context : gnss_mw_scan_context_t
  spec_phase : seq_phase_t
  deriving DecidableEq, Repr

/-- Requests issued to the external collaborators (radio planner, modem
stack, radio driver). -/
inductive mw_action_t
  | add_task (delay_s : Nat)
  | abort_task
  | send_frame (buf : List Nat)
  | increment_event
  | scan_ended
  | radio_sleep
  deriving DecidableEq, Repr

/-- Result of an application-facing operation: return code, successor state,
requests issued to the collaborators. -/
structure op_result_t where
  rc : mw_return_code_t
  st : gnss_state
  acts : List mw_action_t
  deriving DecidableEq, Repr

/-- Initial value of all the file-scope variables (their static
initializers). -/
def state0 : gnss_state :=
  { modem_radio_set := false,
    gnss_scan_group_queue :=
      { token := 0, capacity := 0, sv_min := 0,
        group_mode := .mode_sensitivity, scans := [], nb_scans_valid := 0,
        nb_scans_sent := 0, power_consumption_uah := 0 },
    aiding_position_received := false,
    user_aiding_position_update_received := false,
    user_aiding_position_update := (0, 0),
    solver_aiding_position_update_received := false,
    solver_aiding_position_update := [0, 0, 0, 0],
    scan_group_mode := .mode_sensitivity,
    current_mode_index := 0,
    pending_error := .error_none,
    pending_events := 0,
    current_constellations := 3,
    lorawan_port := 194,
    scan_aggregate := false,
    send_bypass := false,
    task_cancelled_by_user := false,
    task_running := false,
    lr11xx_scan_context :=
      { mode := 0, assisted := false, aiding_position_latitude := 0,
        aiding_position_longitude := 0, almanac_crc := 0 },
    spec_phase := .idle }

/-- Translation of `gnss_mw_init`: rejects a null radio context, otherwise
zeroes the scan group queue, resets the token and records the radio context
as set. -/
def gnss_mw_init (modem_radio_null : Bool) (s : gnss_state) :
    mw_return_code_t × gnss_state :=
  if modem_radio_null then (.failed, s)
  else
    (.ok,
     { s with
         gnss_scan_group_queue :=
           gnss_scan_group_queue_reset_token state0.gnss_scan_group_queue,
         modem_radio_set := true })

/-- Translation of `gnss_mw_has_event`: bit test on the pending-event
bitmask. -/
def gnss_mw_has_event (pending : Nat) (event : gnss_mw_event_type_t) : Bool :=
  if pending &&& (1 <<< event.toBit) = 1 <<< event.toBit then true else false

/-- Translation of `gnss_mw_send_event`: any event other than `SCAN_DONE`
ends the sequence; on `SCAN_DONE` the token is incremented iff aggregation is
off and the group is valid; the event bit is OR-ed into the pending set and
the host event counter is incremented. -/
def gnss_mw_send_event (event_type : gnss_mw_event_type_t) (s : gnss_state) :
    gnss_state × List mw_action_t :=
  let s1 :=
    if event_type ≠ .scan_done then
      { s with task_running := false, spec_phase := .idle }
    else s
  let s2 :=
    if event_type = .scan_done ∧ s1.scan_aggregate = false ∧
        gnss_scan_group_queue_is_valid s1.gnss_scan_group_queue = true then
      { s1 with gnss_scan_group_queue :=
          gnss_scan_group_queue_increment_token s1.gnss_scan_group_queue }
    else s1
  ({ s2 with pending_events := s2.pending_events ||| (1 <<< event_type.toBit) },
   [.increment_event])

/-- Translation of `gnss_mw_scan_next`: queues a radio-planner task after the
given delay; `add_task_ok` is the planner's return code. -/
def gnss_mw_scan_next (delay_s : Nat) (add_task_ok : Bool) :
    Bool × List mw_action_t :=
  (add_task_ok, [.add_task delay_s])

/-- Translation of `gnss_mw_scan_start`: checks initialization, mode range
and the running flag, then resets error/event/cancel state, creates the new
scan group (autonomous capacity 1 with the single-scan threshold when no
assistance is available, per the mode descriptor otherwise) and queues the
first scan. -/
def gnss_mw_scan_start (mode : Nat) (start_delay : Nat) (add_task_ok : Bool)
    (s : gnss_state) : op_result_t :=
  if s.modem_radio_set = false then ⟨.failed, s, []⟩
  else if modes.length ≤ mode then ⟨.failed, s, []⟩
  else if s.task_running = true then ⟨.busy, s, []⟩
  else
    let s1 := { s with current_mode_index := mode,
                       pending_error := .error_none,
                       pending_events := 0,
                       task_cancelled_by_user := false }
    let desc := modes.getD mode default_mode_desc
    let new_queue :=
      if s1.aiding_position_received = false then
        gnss_scan_group_queue_new s1.gnss_scan_group_queue 1 s1.scan_group_mode
          GNSS_SCAN_SINGLE_NAV_MIN_SV
      else
        gnss_scan_group_queue_new s1.gnss_scan_group_queue desc.scan_group_size
          s1.scan_group_mode desc.sv_min
    match new_queue with
    | none => ⟨.failed, s1, []⟩
    | some q =>
      let s2 := { s1 with gnss_scan_group_queue := q }
      match gnss_mw_scan_next start_delay add_task_ok with
      | (true, acts) => ⟨.ok, { s2 with spec_phase := .scheduled }, acts⟩
      | (false, acts) => ⟨.failed, s2, acts⟩

/-- Translation of `gnss_mw_scan_cancel`: rejected with `busy` once the
sequence has entered running; otherwise records the cancellation request and
asks the planner to abort the pending task, returning `ok` regardless of the
abort outcome. -/
def gnss_mw_scan_cancel (s : gnss_state) : op_result_t :=
  if s.task_running = true then ⟨.busy, s, []⟩
  else
    ⟨.ok, { s with task_cancelled_by_user := true }, [.abort_task]⟩

/-- Translation of `gnss_mw_set_user_aiding_position`: rejected when not
initialized; otherwise stores the pending user update and marks assistance
available. -/
def gnss_mw_set_user_aiding_position (latitude longitude : Int)
    (s : gnss_state) : mw_return_code_t × gnss_state :=
  if s.modem_radio_set = false then (.failed, s)
  else
    (.ok,
     { s with user_aiding_position_update := (latitude, longitude),
              user_aiding_position_update_received := true,
              aiding_position_received := true })

/-- Translation of `gnss_mw_set_solver_aiding_position`: rejects a null
payload, then a size different from the fixed 4-byte width, then a
not-initialized middleware; otherwise stores the pending solver update and
marks assistance available. The payload is `none` for a NULL pointer. -/
def gnss_mw_set_solver_aiding_position (payload : Option (List Nat))
    (size : Nat) (s : gnss_state) : mw_return_code_t × gnss_state :=
  match payload with
  | none => (.failed, s)
  | some p =>
    if size ≠ SOLVER_AIDING_POSITION_SIZE then (.failed, s)
    else if s.modem_radio_set = false then (.failed, s)
    else
      (.ok,
       { s with solver_aiding_position_update := p.take SOLVER_AIDING_POSITION_SIZE,
                solver_aiding_position_update_received := true,
                aiding_position_received := true })

/-- Translation of `gnss_mw_set_constellations`. -/
def gnss_mw_set_constellations (c : Nat) (s : gnss_state) : gnss_state :=
  { s with current_constellations := if c = 0 then 1 else if c = 1 then 2 else 3 }

/-- Translation of `gnss_mw_set_port`. -/
def gnss_mw_set_port (port : Nat) (s : gnss_state) : gnss_state :=
  { s with lorawan_port := port }

/-- Translation of `gnss_mw_scan_aggregate`. -/
def gnss_mw_scan_aggregate (aggregate : Bool) (s : gnss_state) : gnss_state :=
  { s with scan_aggregate := aggregate }

/-- Translation of `gnss_mw_send_bypass`. -/
def gnss_mw_send_bypass (no_send : Bool) (s : gnss_state) : gnss_state :=
  { s with send_bypass := no_send }

/-- Data delivered for the `SCAN_DONE` event
(`gnss_mw_event_data_scan_done_t`). -/
structure gnss_mw_event_data_scan_done_t where
  is_valid : Bool
  token : Nat
  nb_scans_valid : Nat
  scans : List gnss_scan_t
  power_consumption_uah : Nat
  context : gnss_mw_scan_context_t
  deriving DecidableEq, Repr

/-- Translation of `gnss_mw_get_event_data_scan_done`: fails unless the
`SCAN_DONE` bit is pending, otherwise copies group validity, token, the
valid scans, power consumption and the frozen context snapshot. -/
def gnss_mw_get_event_data_scan_done (s : gnss_state) :
    mw_return_code_t × Option gnss_mw_event_data_scan_done_t :=
  if gnss_mw_has_event s.pending_events .scan_done then
    (.ok,
     some { is_valid := gnss_scan_group_queue_is_valid s.gnss_scan_group_queue,
            token := s.gnss_scan_group_queue.token,
            nb_scans_valid := s.gnss_scan_group_queue.nb_scans_valid,
            scans := s.gnss_scan_group_queue.scans.take
              s.gnss_scan_group_queue.nb_scans_valid,
            power_consumption_uah :=
              s.gnss_scan_group_queue.power_consumption_uah,
            context := s.lr11xx_scan_context })
  else
    (.failed, none)

/-- Translation of `gnss_mw_get_event_data_terminated`: fails unless the
`TERMINATED` bit is pending; reports the sent count, forced to zero in
bypass mode. -/
def gnss_mw_get_event_data_terminated (s : gnss_state) :
    mw_return_code_t × Option Nat :=
  if gnss_mw_has_event s.pending_events .terminated then
    (.ok,
     some (if s.send_bypass = false then s.gnss_scan_group_queue.nb_scans_sent
           else 0))
  else
    (.failed, none)

/-- Translation of `gnss_mw_clear_pending_events`. -/
def gnss_mw_clear_pending_events (s : gnss_state) : gnss_state :=
  { s with pending_events := 0 }

/-- Outcome of the synchronized-time query observed at launch. -/
inductive time_rc_t
  | time_ok
  | no_time
  | other
  deriving DecidableEq, Repr

/-- Environment inputs of the launch notification: time query outcome,
driver acceptance of the two assistance writes, the device context read back,
and driver acceptance of the scan start. -/
structure launch_env_t where
  time_rc : time_rc_t
  set_assistance_ok : Bool
  push_solver_ok : Bool
  ctx_latitude : Int
  ctx_longitude : Int
  ctx_almanac_crc : Nat
  scan_ok : Bool
  deriving DecidableEq, Repr

/-- Translation of `gnss_mw_scan_rp_task_launch`: marks the sequence running,
then on valid time applies the pending aiding updates (each consumed iff the
driver accepts it), freezes the scan context snapshot and starts the scan
(classifying `SCAN_FAILED` and aborting on driver rejection); on a failed
time query classifies `NO_TIME` or `UNKNOWN` and aborts. -/
def gnss_mw_scan_rp_task_launch (e : launch_env_t) (s : gnss_state) :
    gnss_state × List mw_action_t :=
  let s0 := { s with task_running := true, spec_phase := .running }
  match e.time_rc with
  | .time_ok =>
    let s1 :=
      if s0.user_aiding_position_update_received = true ∧
          e.set_assistance_ok = true then
        { s0 with user_aiding_position_update_received := false }
      else s0
    let s2 :=
      if s1.solver_aiding_position_update_received = true ∧
          e.push_solver_ok = true then
        { s1 with solver_aiding_position_update_received := false }
      else s1
    let s3 :=
      { s2 with lr11xx_scan_context :=
          { mode := s2.current_mode_index,
            assisted := s2.aiding_position_received,
            aiding_position_latitude := e.ctx_latitude,
            aiding_position_longitude := e.ctx_longitude,
            almanac_crc := e.ctx_almanac_crc } }
    if e.scan_ok = true then (s3, [])
    else ({ s3 with pending_error := .scan_failed }, [.abort_task])
  | .no_time => ({ s0 with pending_error := .no_time }, [.abort_task])
  | .other => ({ s0 with pending_error := .unknown }, [.abort_task])

/-- Radio-planner completion status as dispatched by the done callback. -/
inductive rp_radio_status_t
  | aborted
  | gnss_scan_done
  | other
  deriving DecidableEq, Repr

/-- Driver result-retrieval outcome (`smtc_gnss_get_results_return_code_t`). -/
inductive get_results_rc_t
  | no_error
  | error_almanac
  | error_aiding_pos
  | error_no_time
  | error_other
  deriving DecidableEq, Repr

/-- Environment inputs of the completion notification: measured power, the
driver's result-retrieval outcome and the retrieved result fields, and the
modem's acceptance of the first drain uplink. -/
structure done_env_t where
  power_consumption_uah : Nat
  results_rc : get_results_rc_t
  timestamp : Nat
  results_size : Nat
  nav : List Nat
  detected_svs : Nat
  info_svs : List gnss_mw_sv_info_t
  nav_valid : Bool
  uplink_ok : Bool
  deriving DecidableEq, Repr

/-- Scan result assembled by the completion notification from the driver
reads. -/
def done_env_t.scan (e : done_env_t) : gnss_scan_t :=
  { timestamp := e.timestamp, results_size := e.results_size, nav := e.nav,
    nav_valid := e.nav_valid, detected_svs := e.detected_svs,
    info_svs := e.info_svs }

/-- Translation of `gnss_mw_send_results`: in bypass mode immediately reports
nothing to send without consulting the queue; otherwise pops the next unsent
result and requests its uplink, reporting success iff the modem accepted the
request. -/
def gnss_mw_send_results (uplink_ok : Bool) (s : gnss_state) :
    Bool × gnss_state × List mw_action_t :=
  if s.send_bypass = true then (false, s, [])
  else
    match gnss_scan_group_queue_pop s.gnss_scan_group_queue with
    | (none, q) => (false, { s with gnss_scan_group_queue := q }, [])
    | (some buf, q) =>
      (uplink_ok, { s with gnss_scan_group_queue := q }, [.send_frame buf])

/-- Translation of `gnss_mw_tx_done_callback`: drains the next result; when
nothing remains to send, emits the terminal `TERMINATED` event. -/
def gnss_mw_tx_done_callback (uplink_ok : Bool) (s : gnss_state) :
    gnss_state × List mw_action_t :=
  match gnss_mw_send_results uplink_ok s with
  | (false, s1, a1) =>
    let (s2, a2) := gnss_mw_send_event .terminated s1
    (s2, a1 ++ a2)
  | (true, s1, a1) => (s1, a1)

/-- Translation of `gnss_mw_scan_rp_task_done`: signals scan-ended cleanup,
dispatches on the completion status (aborted: retry, cancelled or
error-classified termination; scan done: accumulate power, push or map the
retrieval error, reschedule or hand over to the drain pipeline; unknown:
`ERROR_UNKNOWN`), and unconditionally puts the radio back to sleep. -/
def gnss_mw_scan_rp_task_done (e : done_env_t) (irq_status : rp_radio_status_t)
    (s : gnss_state) : gnss_state × List mw_action_t :=
  let core : gnss_state × List mw_action_t :=
    match irq_status with
    | .aborted =>
      if s.pending_error = .error_none then
        if s.task_cancelled_by_user = false then
          ({ s with spec_phase := .scheduled },
           (gnss_mw_scan_next
              (modes.getD s.current_mode_index default_mode_desc).scan_group_delay
              true).2)
        else
          gnss_mw_send_event .scan_cancelled
            { s with task_cancelled_by_user := false }
      else if s.pending_error = .no_time then
        gnss_mw_send_event .error_no_time s
      else
        gnss_mw_send_event .error_unknown s
    | .gnss_scan_done =>
      let sp :=
        { s with gnss_scan_group_queue :=
            { s.gnss_scan_group_queue with power_consumption_uah :=
                s.gnss_scan_group_queue.power_consumption_uah +
                  e.power_consumption_uah } }
      match e.results_rc with
      | .no_error =>
        let sq :=
          { sp with gnss_scan_group_queue :=
              gnss_scan_group_queue_push sp.gnss_scan_group_queue e.scan }
        if gnss_scan_group_queue_is_full sq.gnss_scan_group_queue = false then
          ({ sq with spec_phase := .scheduled },
           (gnss_mw_scan_next
              (modes.getD sq.current_mode_index default_mode_desc).scan_group_delay
              true).2)
        else
          let (s1, a1) := gnss_mw_send_event .scan_done sq
          match gnss_mw_send_results e.uplink_ok s1 with
          | (false, s2, a2) =>
            let (s3, a3) := gnss_mw_send_event .terminated s2
            (s3, a1 ++ a2 ++ a3)
          | (true, s2, a2) => ({ s2 with spec_phase := .draining }, a1 ++ a2)
      | .error_almanac => gnss_mw_send_event .error_almanac_update sp
      | .error_aiding_pos => gnss_mw_send_event .error_no_aiding_position sp
      | .error_no_time => gnss_mw_send_event .error_no_time sp
      | .error_other => gnss_mw_send_event .error_unknown sp
    | .other => gnss_mw_send_event .error_unknown s
  (core.1, .scan_ended :: core.2 ++ [.radio_sleep])

/-- Initialized middleware, idle, no assistance configured: reached from the
static initial state by `gnss_mw_init` with a valid radio context. -/
def s_ready : gnss_state := (gnss_mw_init false state0).2

/-- Initialized middleware with a user aiding position configured. -/
def s_assisted : gnss_state :=
  (gnss_mw_set_user_aiding_position 4885 235 s_ready).2

/-- Sequence accepted and first scan queued, launch not yet fired: the spec's
`Scheduled` phase, reached from `s_ready` by a successful `start`. -/
def s_sched : gnss_state := (gnss_mw_scan_start 0 0 true s_ready).st

/-- Launch environment with valid time and a driver that accepts everything. -/
def launch_env0 : launch_env_t :=
  { time_rc := .time_ok, set_assistance_ok := true, push_solver_ok := true,
    ctx_latitude := 0, ctx_longitude := 0, ctx_almanac_crc := 0,
    scan_ok := true }

/-- Sequence whose first scan has been launched: reached from `s_sched` by
the launch notification. -/
def s_run : gnss_state := (gnss_mw_scan_rp_task_launch launch_env0 s_sched).1

/-- Completion environment: a successful scan with six detected satellites. -/
def done_env0 : done_env_t :=
  { power_consumption_uah := 7, results_rc := .no_error, timestamp := 1,
    results_size := 2, nav := [1, 2], detected_svs := 6, info_svs := [],
    nav_valid := true, uplink_ok := true }

/-- Running state with bypass ("scan only") mode configured. -/
def s_run_bypass : gnss_state := gnss_mw_send_bypass true s_run

end GnssMiddleware

namespace GnssMiddleware

/-- OR-ing a mask into a word sets exactly the mask's bits: bit-test of the
result against the mask recovers the mask. -/
theorem lor_land_self (a b : Nat) : (a ||| b) &&& b = b := by
  apply Nat.eq_of_testBit_eq
  intro i
  rw [Nat.testBit_land, Nat.testBit_lor]
  cases h : b.testBit i <;> simp [h]

/-- Accumulating an event bit makes the corresponding event test succeed,
whatever was pending before. -/
theorem has_event_after_lor (pending : Nat) (ev : gnss_mw_event_type_t) :
    gnss_mw_has_event (pending ||| (1 <<< ev.toBit)) ev = true := by
  unfold gnss_mw_has_event
  rw [if_pos (lor_land_self pending (1 <<< ev.toBit))]

/-- Sending an event never touches the assistance-available flag. -/
theorem send_event_aiding (event_type : gnss_mw_event_type_t)
    (s : gnss_state) :
    (gnss_mw_send_event event_type s).1.aiding_position_received =
      s.aiding_position_received := by
  dsimp only [gnss_mw_send_event]
  split_ifs <;> rfl

/-- Draining never touches the assistance-available flag. -/
theorem send_results_aiding (uplink_ok : Bool) (s : gnss_state) :
    (gnss_mw_send_results uplink_ok s).2.1.aiding_position_received =
      s.aiding_position_received := by
  unfold gnss_mw_send_results
  split
  · rfl
  · rcases h : gnss_scan_group_queue_pop s.gnss_scan_group_queue with ⟨_ | _, q⟩ <;>
      simp [h]

/-- Successful `start` creates a fresh scan group: persistent token, empty
contents, zero counters, and capacity/threshold chosen autonomously when no
assistance is available, per the mode descriptor otherwise. -/
theorem scan_start_ok_queue (mode start_delay : Nat) (add_task_ok : Bool)
    (s : gnss_state)
    (h : (gnss_mw_scan_start mode start_delay add_task_ok s).rc = .ok) :
    (gnss_mw_scan_start mode start_delay add_task_ok s).st.gnss_scan_group_queue =
      { token := s.gnss_scan_group_queue.token,
        capacity :=
          if s.aiding_position_received = false then 1
          else (modes.getD mode default_mode_desc).scan_group_size,
        sv_min :=
          if s.aiding_position_received = false then GNSS_SCAN_SINGLE_NAV_MIN_SV
          else (modes.getD mode default_mode_desc).sv_min,
        group_mode := s.scan_group_mode, scans := [], nb_scans_valid := 0,
        nb_scans_sent := 0, power_consumption_uah := 0 } := by
  cases hr : s.modem_radio_set
  · simp [gnss_mw_scan_start, hr] at h
  · rcases Nat.lt_or_ge mode modes.length with hm | hm
    · have hm2 : mode < 2 := by simpa [modes] using hm
      cases ht : s.task_running
      · interval_cases mode <;> cases ha : s.aiding_position_received <;>
          cases add_task_ok <;>
            simp_all [gnss_mw_scan_start, gnss_mw_scan_next,
              gnss_scan_group_queue_new, GNSS_SCAN_GROUP_SIZE_MAX, modes]
      · interval_cases mode <;>
          simp [gnss_mw_scan_start, hr, ht, modes] at h
    · simp [gnss_mw_scan_start, hr, hm] at h

/-- C1 (amended): `start` answers `busy` exactly when the middleware is
initialized, the mode is a recognized descriptor index and the sequence has
entered running without having terminated (`task_running` set); a `busy`
answer mutates nothing and requests nothing. -/
theorem c1_start_busy_characterization (mode start_delay : Nat)
    (add_task_ok : Bool) (s : gnss_state) :
    ((gnss_mw_scan_start mode start_delay add_task_ok s).rc = .busy ↔
      (s.modem_radio_set = true ∧ mode < modes.length ∧
        s.task_running = true)) ∧
    ((gnss_mw_scan_start mode start_delay add_task_ok s).rc = .busy →
      (gnss_mw_scan_start mode start_delay add_task_ok s).st = s ∧
      (gnss_mw_scan_start mode start_delay add_task_ok s).acts = []) := by
  cases hr : s.modem_radio_set
  · simp [gnss_mw_scan_start, hr]
  · rcases Nat.lt_or_ge mode modes.length with hm | hm
    · have hm2 : mode < 2 := by simpa [modes] using hm
      cases ht : s.task_running
      · interval_cases mode <;> cases ha : s.aiding_position_received <;>
          cases add_task_ok <;>
            simp_all [gnss_mw_scan_start, gnss_mw_scan_next,
              gnss_scan_group_queue_new, GNSS_SCAN_GROUP_SIZE_MAX, modes]
      · interval_cases mode <;>
          simp [gnss_mw_scan_start, gnss_mw_scan_next, hr, ht, modes]
    · simp [gnss_mw_scan_start, hr, hm, Nat.not_lt.mpr hm]

/-- Counterexample to C1 as stated: in the reachable `Scheduled` state (the
sequence accepted and its first scan queued, launch not yet fired) the
sequence is not `Idle`, yet `start` answers `ok`, not `busy`. -/
theorem c1_start_busy_counterexample :
    s_sched.spec_phase = seq_phase_t.scheduled ∧
    s_sched.spec_phase ≠ seq_phase_t.idle ∧
    (gnss_mw_scan_start 0 0 true s_sched).rc = .ok ∧
    (gnss_mw_scan_start 0 0 true s_sched).rc ≠ .busy := by
  refine ⟨by decide, by decide, by decide, by decide⟩

/-- Witness for C1 (amended): on the running state `start` is `busy` and
mutates nothing. -/
theorem c1_start_busy_characterization_witness :
    (gnss_mw_scan_start 0 0 true s_run).rc = .busy ∧
    (gnss_mw_scan_start 0 0 true s_run).st = s_run :=
  ⟨(c1_start_busy_characterization 0 0 true s_run).1.mpr
      ⟨by decide, by decide, by decide⟩,
   ((c1_start_busy_characterization 0 0 true s_run).2
      ((c1_start_busy_characterization 0 0 true s_run).1.mpr
        ⟨by decide, by decide, by decide⟩)).1⟩

/-- C2: dispatch of an aborted completion: with no pending error and no
cancellation request the next scan of the group is queued after the mode's
inter-scan delay and nothing is terminated; with no pending error and a
pending cancellation the flag is cleared and the terminal `Cancelled` event
is emitted; with pending error `NoTime` the terminal `ErrorNoTime` event is
emitted. -/
theorem c2_aborted_dispatch (e : done_env_t) (s : gnss_state) :
    (s.pending_error = .error_none → s.task_cancelled_by_user = false →
      gnss_mw_scan_rp_task_done e .aborted s =
        ({ s with spec_phase := .scheduled },
         [.scan_ended,
          .add_task
            (modes.getD s.current_mode_index default_mode_desc).scan_group_delay,
          .radio_sleep])) ∧
    (s.pending_error = .error_none → s.task_cancelled_by_user = true →
      gnss_mw_scan_rp_task_done e .aborted s =
        ({ s with task_cancelled_by_user := false, task_running := false,
                  spec_phase := .idle,
                  pending_events := s.pending_events |||
                    (1 <<< gnss_mw_event_type_t.scan_cancelled.toBit) },
         [.scan_ended, .increment_event, .radio_sleep]) ∧
      gnss_mw_has_event
        (gnss_mw_scan_rp_task_done e .aborted s).1.pending_events
        .scan_cancelled = true) ∧
    (s.pending_error = .no_time →
      gnss_mw_scan_rp_task_done e .aborted s =
        ({ s with task_running := false, spec_phase := .idle,
                  pending_events := s.pending_events |||
                    (1 <<< gnss_mw_event_type_t.error_no_time.toBit) },
         [.scan_ended, .increment_event, .radio_sleep]) ∧
      gnss_mw_has_event
        (gnss_mw_scan_rp_task_done e .aborted s).1.pending_events
        .error_no_time = true) := by
  refine ⟨fun h1 h2 => ?_, fun h1 h2 => ⟨?_, ?_⟩, fun h1 => ⟨?_, ?_⟩⟩
  · simp [gnss_mw_scan_rp_task_done, gnss_mw_send_event, gnss_mw_scan_next,
      h1, h2]
  · simp [gnss_mw_scan_rp_task_done, gnss_mw_send_event, gnss_mw_scan_next,
      h1, h2]
  · simp [gnss_mw_scan_rp_task_done, gnss_mw_send_event, gnss_mw_scan_next,
      h1, h2, has_event_after_lor]
  · simp [gnss_mw_scan_rp_task_done, gnss_mw_send_event, gnss_mw_scan_next,
      h1]
  · simp [gnss_mw_scan_rp_task_done, gnss_mw_send_event, gnss_mw_scan_next,
      h1, has_event_after_lor]

/-- Witness for C2: concrete aborted completions from the running state for
the three dispatch cases (retry, cancelled, no-time). -/
theorem c2_aborted_dispatch_witness :
    gnss_mw_scan_rp_task_done done_env0 .aborted s_run =
      ({ s_run with spec_phase := .scheduled },
       [.scan_ended, .add_task 15, .radio_sleep]) ∧
    gnss_mw_has_event
      (gnss_mw_scan_rp_task_done done_env0 .aborted
        { s_run with task_cancelled_by_user := true }).1.pending_events
      .scan_cancelled = true ∧
    gnss_mw_has_event
      (gnss_mw_scan_rp_task_done done_env0 .aborted
        { s_run with pending_error := .no_time }).1.pending_events
      .error_no_time = true :=
  ⟨(c2_aborted_dispatch done_env0 s_run).1 (by decide) (by decide),
   ((c2_aborted_dispatch done_env0
      { s_run with task_cancelled_by_user := true }).2.1 (by decide)
      (by decide)).2,
   ((c2_aborted_dispatch done_env0
      { s_run with pending_error := .no_time }).2.2 (by decide)).2⟩

/-- C3: the group token advances by exactly one at the moment an event is
emitted if and only if the event is `SCAN_DONE`, aggregate mode is disabled
and the group is valid; in every other case the token is unchanged. -/
theorem c3_token_advance_iff (event_type : gnss_mw_event_type_t)
    (s : gnss_state) :
    ((gnss_mw_send_event event_type s).1.gnss_scan_group_queue.token =
        s.gnss_scan_group_queue.token + 1 ↔
      (event_type = .scan_done ∧ s.scan_aggregate = false ∧
        gnss_scan_group_queue_is_valid s.gnss_scan_group_queue = true)) ∧
    ((gnss_mw_send_event event_type s).1.gnss_scan_group_queue.token =
        s.gnss_scan_group_queue.token + 1 ∨
      (gnss_mw_send_event event_type s).1.gnss_scan_group_queue.token =
        s.gnss_scan_group_queue.token) := by
  dsimp only [gnss_mw_send_event, gnss_scan_group_queue_increment_token]
  split_ifs <;> simp_all

/-- C4: `cancel` succeeds and requests a planner abort exactly when the
sequence has not yet entered running (`task_running` clear); once running it
is rejected with `busy` and nothing is mutated nor requested. -/
theorem c4_cancel_characterization (s : gnss_state) :
    ((gnss_mw_scan_cancel s).rc = .ok ↔ s.task_running = false) ∧
    ((gnss_mw_scan_cancel s).acts = [.abort_task] ↔ s.task_running = false) ∧
    (s.task_running = false →
      (gnss_mw_scan_cancel s).st = { s with task_cancelled_by_user := true }) ∧
    (s.task_running = true →
      (gnss_mw_scan_cancel s).rc = .busy ∧ (gnss_mw_scan_cancel s).st = s ∧
        (gnss_mw_scan_cancel s).acts = []) := by
  unfold gnss_mw_scan_cancel
  cases h : s.task_running <;> simp [h]

/-- Witness for C4: in the ready (idle) state `cancel` returns `ok`; in the
running state it returns `busy` and leaves the state untouched. -/
theorem c4_cancel_characterization_witness :
    (gnss_mw_scan_cancel s_ready).rc = .ok ∧
    (gnss_mw_scan_cancel s_run).rc = .busy ∧
    (gnss_mw_scan_cancel s_run).st = s_run :=
  ⟨(c4_cancel_characterization s_ready).1.mpr (by decide),
   ((c4_cancel_characterization s_run).2.2.2 (by decide)).1,
   ((c4_cancel_characterization s_run).2.2.2 (by decide)).2.1⟩

/-- C5: a mode index outside the descriptor table is rejected synchronously
(the C code answers `MW_RC_FAILED`, the spec's `InvalidArgument`) with no
state mutation and no collaborator request. -/
theorem c5_invalid_mode_rejected (mode start_delay : Nat)
    (add_task_ok : Bool) (s : gnss_state) (h : modes.length ≤ mode) :
    (gnss_mw_scan_start mode start_delay add_task_ok s).rc = .failed ∧
    (gnss_mw_scan_start mode start_delay add_task_ok s).st = s ∧
    (gnss_mw_scan_start mode start_delay add_task_ok s).acts = [] := by
  unfold gnss_mw_scan_start
  cases hr : s.modem_radio_set <;> simp [h]

/-- Witness for C5: mode index 5 (table has 2 entries) is rejected on the
initialized idle state. -/
theorem c5_invalid_mode_rejected_witness :
    (gnss_mw_scan_start 5 0 true s_ready).rc = .failed ∧
    (gnss_mw_scan_start 5 0 true s_ready).st = s_ready ∧
    (gnss_mw_scan_start 5 0 true s_ready).acts = [] :=
  c5_invalid_mode_rejected 5 0 true s_ready (by decide)

/-- C8: the scan-done and terminated data getters succeed exactly when their
event bit is pending and fail exactly when it is not (data present exactly on
success), and clearing the pending events zeroes the event set and nothing
else. -/
theorem c8_event_data_gating (s : gnss_state) :
    ((gnss_mw_get_event_data_scan_done s).1 = .ok ↔
      gnss_mw_has_event s.pending_events .scan_done = true) ∧
    ((gnss_mw_get_event_data_scan_done s).1 = .failed ↔
      gnss_mw_has_event s.pending_events .scan_done = false) ∧
    ((gnss_mw_get_event_data_scan_done s).2.isSome = true ↔
      gnss_mw_has_event s.pending_events .scan_done = true) ∧
    ((gnss_mw_get_event_data_terminated s).1 = .ok ↔
      gnss_mw_has_event s.pending_events .terminated = true) ∧
    ((gnss_mw_get_event_data_terminated s).1 = .failed ↔
      gnss_mw_has_event s.pending_events .terminated = false) ∧
    ((gnss_mw_get_event_data_terminated s).2.isSome = true ↔
      gnss_mw_has_event s.pending_events .terminated = true) ∧
    gnss_mw_clear_pending_events s = { s with pending_events := 0 } := by
  unfold gnss_mw_get_event_data_scan_done gnss_mw_get_event_data_terminated
    gnss_mw_clear_pending_events
  cases h1 : gnss_mw_has_event s.pending_events .scan_done <;>
    cases h2 : gnss_mw_has_event s.pending_events .terminated <;>
      simp [h1, h2]

end GnssMiddleware

namespace GnssMiddleware

/-- C6: the solver aiding-position setter rejects a null payload and any size
other than its fixed 4-byte width with no state mutation; it succeeds exactly
when the size matches and the middleware is initialized — independently of
any sequence in progress — and then stores the pending update and raises the
assistance-available flag; the user setter likewise succeeds exactly when the
middleware is initialized. The C code answers `MW_RC_FAILED` for the spec's
`InvalidArgument` and `NotReady`. -/
theorem c6_solver_aiding_position (p : List Nat) (size : Nat)
    (latitude longitude : Int) (s : gnss_state) :
    gnss_mw_set_solver_aiding_position none size s = (.failed, s) ∧
    (size ≠ SOLVER_AIDING_POSITION_SIZE →
      gnss_mw_set_solver_aiding_position (some p) size s = (.failed, s)) ∧
    ((gnss_mw_set_solver_aiding_position (some p) size s).1 = .ok ↔
      (size = SOLVER_AIDING_POSITION_SIZE ∧ s.modem_radio_set = true)) ∧
    ((gnss_mw_set_solver_aiding_position (some p) size s).1 = .ok →
      (gnss_mw_set_solver_aiding_position (some p) size s).2 =
        { s with
            solver_aiding_position_update := p.take SOLVER_AIDING_POSITION_SIZE,
            solver_aiding_position_update_received := true,
            aiding_position_received := true }) ∧
    ((gnss_mw_set_user_aiding_position latitude longitude s).1 = .ok ↔
      s.modem_radio_set = true) := by
  unfold gnss_mw_set_solver_aiding_position gnss_mw_set_user_aiding_position
  by_cases hs : size = SOLVER_AIDING_POSITION_SIZE <;>
    cases hr : s.modem_radio_set <;> simp [hs, hr]

/-- Witness for C6: a 3-byte payload is rejected without mutation; a 4-byte
payload on the initialized idle state is stored with the assistance flag
raised; the user setter succeeds there too. -/
theorem c6_solver_aiding_position_witness :
    gnss_mw_set_solver_aiding_position (some [1, 2, 3, 4]) 3 s_ready =
      (.failed, s_ready) ∧
    (gnss_mw_set_solver_aiding_position (some [1, 2, 3, 4]) 4 s_ready).2 =
      { s_ready with
          solver_aiding_position_update := [1, 2, 3, 4],
          solver_aiding_position_update_received := true,
          aiding_position_received := true } ∧
    (gnss_mw_set_user_aiding_position 4885 235 s_ready).1 = .ok :=
  ⟨(c6_solver_aiding_position [1, 2, 3, 4] 3 0 0 s_ready).2.1 (by decide),
   (c6_solver_aiding_position [1, 2, 3, 4] 4 0 0 s_ready).2.2.2.1
     ((c6_solver_aiding_position [1, 2, 3, 4] 4 0 0 s_ready).2.2.1.mpr
       ⟨rfl, by decide⟩),
   (c6_solver_aiding_position [1, 2, 3, 4] 4 4885 235 s_ready).2.2.2.2.mpr
     (by decide)⟩

set_option maxHeartbeats 2000000 in
/-- C7: with bypass mode enabled the drain step reports nothing to send
without touching state or requesting a transmission; a completed scan that
fills the group then emits `SCAN_DONE` followed immediately by `TERMINATED`
with no transmission request; and the terminated data reports a sent count of
zero whatever the group holds. -/
theorem c7_bypass_no_send (uplink_ok : Bool) (e : done_env_t)
    (s : gnss_state) (hb : s.send_bypass = true) :
    gnss_mw_send_results uplink_ok s = (false, s, []) ∧
    (e.results_rc = .no_error →
      gnss_scan_group_queue_is_full
          (gnss_scan_group_queue_push
            { s.gnss_scan_group_queue with
                power_consumption_uah :=
                  s.gnss_scan_group_queue.power_consumption_uah +
                    e.power_consumption_uah } e.scan) = true →
      gnss_mw_has_event
        (gnss_mw_scan_rp_task_done e .gnss_scan_done s).1.pending_events
        .terminated = true ∧
      (gnss_mw_scan_rp_task_done e .gnss_scan_done s).2 =
        [.scan_ended, .increment_event, .increment_event, .radio_sleep]) ∧
    (gnss_mw_has_event s.pending_events .terminated = true →
      gnss_mw_get_event_data_terminated s = (.ok, some 0)) := by
  refine ⟨?_, fun h1 h2 => ?_, fun h3 => ?_⟩
  · simp [gnss_mw_send_results, hb]
  · simp only [gnss_scan_group_queue_is_full, gnss_scan_group_queue_push,
      done_env_t.scan] at h2
    simp only [gnss_mw_scan_rp_task_done, gnss_mw_send_results,
      gnss_mw_send_event, gnss_mw_scan_next, gnss_scan_group_queue_is_full,
      gnss_scan_group_queue_push, done_env_t.scan, hb, h1]
    split_ifs <;> simp_all [has_event_after_lor, apply_ite]
  · simp [gnss_mw_get_event_data_terminated, h3, hb]

/-- Witness for C7: the running bypass state with its capacity-1 group: the
drain step is inert, a completed scan yields the terminated event with no
transmission, and the terminated data reads zero. -/
theorem c7_bypass_no_send_witness :
    gnss_mw_send_results true s_run_bypass = (false, s_run_bypass, []) ∧
    gnss_mw_has_event
      (gnss_mw_scan_rp_task_done done_env0 .gnss_scan_done
        s_run_bypass).1.pending_events .terminated = true ∧
    gnss_mw_get_event_data_terminated { s_run_bypass with pending_events := 2 } =
      (.ok, some 0) :=
  ⟨(c7_bypass_no_send true done_env0 s_run_bypass (by decide)).1,
   ((c7_bypass_no_send true done_env0 s_run_bypass (by decide)).2.1
     (by decide) (by decide)).1,
   (c7_bypass_no_send true done_env0
     { s_run_bypass with pending_events := 2 } (by decide)).2.2 (by decide)⟩

/-- C9: a successful `start` creates the group with capacity 1 and the
single-scan validity threshold when no assistance position is available, and
with the selected mode descriptor's group size and minimum-satellite
threshold otherwise (in both cases the group starts empty). -/
theorem c9_group_sizing (mode start_delay : Nat) (add_task_ok : Bool)
    (s : gnss_state)
    (h : (gnss_mw_scan_start mode start_delay add_task_ok s).rc = .ok) :
    (s.aiding_position_received = false →
      (gnss_mw_scan_start mode start_delay add_task_ok
          s).st.gnss_scan_group_queue.capacity = 1 ∧
      (gnss_mw_scan_start mode start_delay add_task_ok
          s).st.gnss_scan_group_queue.sv_min = GNSS_SCAN_SINGLE_NAV_MIN_SV ∧
      (gnss_mw_scan_start mode start_delay add_task_ok
          s).st.gnss_scan_group_queue.scans = []) ∧
    (s.aiding_position_received = true →
      (gnss_mw_scan_start mode start_delay add_task_ok
          s).st.gnss_scan_group_queue.capacity =
        (modes.getD mode default_mode_desc).scan_group_size ∧
      (gnss_mw_scan_start mode start_delay add_task_ok
          s).st.gnss_scan_group_queue.sv_min =
        (modes.getD mode default_mode_desc).sv_min ∧
      (gnss_mw_scan_start mode start_delay add_task_ok
          s).st.gnss_scan_group_queue.scans = []) := by
  have hq := scan_start_ok_queue mode start_delay add_task_ok s h
  refine ⟨fun ha => ?_, fun ha => ?_⟩ <;> rw [hq] <;> simp [ha]

/-- Witness for C9: from the initialized idle state `start` builds a
capacity-1 autonomous group; after a user aiding position, `start` of the
STATIC mode builds a capacity-4 assisted group with its threshold. -/
theorem c9_group_sizing_witness :
    (gnss_mw_scan_start 0 0 true s_ready).st.gnss_scan_group_queue.capacity = 1 ∧
    (gnss_mw_scan_start 0 0 true
        s_ready).st.gnss_scan_group_queue.sv_min = GNSS_SCAN_SINGLE_NAV_MIN_SV ∧
    (gnss_mw_scan_start 0 0 true
        s_assisted).st.gnss_scan_group_queue.capacity = 4 ∧
    (gnss_mw_scan_start 0 0 true s_assisted).st.gnss_scan_group_queue.sv_min = 3 :=
  ⟨((c9_group_sizing 0 0 true s_ready (by decide)).1 (by decide)).1,
   ((c9_group_sizing 0 0 true s_ready (by decide)).1 (by decide)).2.1,
   ((c9_group_sizing 0 0 true s_assisted (by decide)).2 (by decide)).1,
   ((c9_group_sizing 0 0 true s_assisted (by decide)).2 (by decide)).2.1⟩

end GnssMiddleware

namespace GnssMiddleware

/-- Launch notification never touches the assistance-available flag. -/
theorem scan_rp_task_launch_aiding (e : launch_env_t) (s : gnss_state) :
    (gnss_mw_scan_rp_task_launch e s).1.aiding_position_received =
      s.aiding_position_received := by
  cases he : e.time_rc <;>
    simp only [gnss_mw_scan_rp_task_launch, he] <;> (split_ifs <;> rfl)

set_option maxHeartbeats 2000000 in
/-- Completion notification never touches the assistance-available flag. -/
theorem scan_rp_task_done_aiding (e : done_env_t) (irq : rp_radio_status_t)
    (s : gnss_state) :
    (gnss_mw_scan_rp_task_done e irq s).1.aiding_position_received =
      s.aiding_position_received := by
  cases irq <;> cases hrc : e.results_rc <;> cases hu : e.uplink_ok <;>
    simp only [gnss_mw_scan_rp_task_done, gnss_mw_send_results,
      gnss_mw_send_event, gnss_mw_scan_next, gnss_scan_group_queue_pop,
      hrc, hu] <;>
    split_ifs <;> simp_all [apply_ite]

/-- Transmission-completion callback never touches the assistance-available
flag. -/
theorem tx_done_callback_aiding (uplink_ok : Bool) (s : gnss_state) :
    (gnss_mw_tx_done_callback uplink_ok s).1.aiding_position_received =
      s.aiding_position_received := by
  cases uplink_ok <;>
    simp only [gnss_mw_tx_done_callback, gnss_mw_send_results,
      gnss_mw_send_event, gnss_scan_group_queue_pop] <;>
    split_ifs <;> simp_all [apply_ite]

/-- Starting a sequence never touches the assistance-available flag. -/
theorem scan_start_aiding (mode start_delay : Nat) (add_task_ok : Bool)
    (s : gnss_state) :
    (gnss_mw_scan_start mode start_delay add_task_ok
        s).st.aiding_position_received = s.aiding_position_received := by
  cases add_task_ok <;>
    simp only [gnss_mw_scan_start, gnss_mw_scan_next,
      gnss_scan_group_queue_new] <;>
    split_ifs <;> simp_all [apply_ite]

set_option maxHeartbeats 1000000 in
/-- C10: once the assistance-available flag is raised, no middleware
operation (initialization, sequence control, aiding setters, configuration
setters, event bookkeeping, any notification handler or the drain pipeline)
ever clears it, and every subsequently accepted `start` therefore creates an
assisted group sized by the selected mode descriptor. -/
theorem c10_assistance_flag_monotone (s : gnss_state)
    (h : s.aiding_position_received = true) (radio_null : Bool)
    (mode start_delay : Nat) (add_task_ok : Bool) (latitude longitude : Int)
    (payload : Option (List Nat)) (size : Nat) (c port : Nat) (b1 b2 : Bool)
    (ev : gnss_mw_event_type_t) (le : launch_env_t) (de : done_env_t)
    (irq : rp_radio_status_t) (uplink_ok : Bool) :
    (gnss_mw_init radio_null s).2.aiding_position_received = true ∧
    (gnss_mw_scan_start mode start_delay add_task_ok
        s).st.aiding_position_received = true ∧
    (gnss_mw_scan_cancel s).st.aiding_position_received = true ∧
    (gnss_mw_set_user_aiding_position latitude longitude
        s).2.aiding_position_received = true ∧
    (gnss_mw_set_solver_aiding_position payload size
        s).2.aiding_position_received = true ∧
    (gnss_mw_set_constellations c s).aiding_position_received = true ∧
    (gnss_mw_set_port port s).aiding_position_received = true ∧
    (gnss_mw_scan_aggregate b1 s).aiding_position_received = true ∧
    (gnss_mw_send_bypass b2 s).aiding_position_received = true ∧
    (gnss_mw_clear_pending_events s).aiding_position_received = true ∧
    (gnss_mw_send_event ev s).1.aiding_position_received = true ∧
    (gnss_mw_scan_rp_task_launch le s).1.aiding_position_received = true ∧
    (gnss_mw_scan_rp_task_done de irq s).1.aiding_position_received = true ∧
    (gnss_mw_tx_done_callback uplink_ok s).1.aiding_position_received = true ∧
    (gnss_mw_send_results uplink_ok s).2.1.aiding_position_received = true ∧
    ((gnss_mw_scan_start mode start_delay add_task_ok s).rc = .ok →
      (gnss_mw_scan_start mode start_delay add_task_ok
          s).st.gnss_scan_group_queue.capacity =
        (modes.getD mode default_mode_desc).scan_group_size ∧
      (gnss_mw_scan_start mode start_delay add_task_ok
          s).st.gnss_scan_group_queue.sv_min =
        (modes.getD mode default_mode_desc).sv_min) := by
  refine ⟨?_, ?_, ?_, ?_, ?_, ?_, ?_, ?_, ?_, ?_, ?_, ?_, ?_, ?_, ?_,
    fun hok => ?_⟩
  · cases radio_null <;> simp [gnss_mw_init, h]
  · rw [scan_start_aiding]
    exact h
  · unfold gnss_mw_scan_cancel
    split_ifs <;> simp [h]
  · unfold gnss_mw_set_user_aiding_position
    split_ifs <;> simp [h]
  · rcases payload with _ | p <;>
      simp only [gnss_mw_set_solver_aiding_position] <;>
      first
        | exact h
        | (split_ifs <;> simp [h])
  · simp [gnss_mw_set_constellations, h]
  · simp [gnss_mw_set_port, h]
  · simp [gnss_mw_scan_aggregate, h]
  · simp [gnss_mw_send_bypass, h]
  · simp [gnss_mw_clear_pending_events, h]
  · rw [send_event_aiding]
    exact h
  · rw [scan_rp_task_launch_aiding]
    exact h
  · rw [scan_rp_task_done_aiding]
    exact h
  · rw [tx_done_callback_aiding]
    exact h
  · rw [send_results_aiding]
    exact h
  · have hq := scan_start_ok_queue mode start_delay add_task_ok s hok
    rw [hq]
    simp [h]

/-- Witness for C10: after a user aiding position has been configured, a
`start`, an aborted completion and the created group's capacity all reflect
the persisting flag. -/
theorem c10_assistance_flag_monotone_witness :
    (gnss_mw_scan_start 0 0 true s_assisted).st.aiding_position_received =
      true ∧
    (gnss_mw_scan_rp_task_done done_env0 .aborted
        s_assisted).1.aiding_position_received = true ∧
    (gnss_mw_scan_start 0 0 true
        s_assisted).st.gnss_scan_group_queue.capacity = 4 := by
  refine ⟨?_, ?_, ?_⟩
  · exact (c10_assistance_flag_monotone s_assisted (by decide) false 0 0 true
      0 0 none 0 0 0 true true .scan_done launch_env0 done_env0 .aborted
      true).2.1
  · exact (c10_assistance_flag_monotone s_assisted (by decide) false 0 0 true
      0 0 none 0 0 0 true true .scan_done launch_env0 done_env0 .aborted
      true).2.2.2.2.2.2.2.2.2.2.2.2.1
  · exact ((c10_assistance_flag_monotone s_assisted (by decide) false 0 0 true
      0 0 none 0 0 0 true true .scan_done launch_env0 done_env0 .aborted
      true).2.2.2.2.2.2.2.2.2.2.2.2.2.2.2 (by decide)).1

end GnssMiddleware
